import Mathlib

/-!
Verification of the generic entity-namespace framework (namespace.py).

Shallow embedding: Python dicts become association lists, in-place
mutation becomes explicit state passing, and a raised exception becomes
an error value carried next to the (possibly partially mutated) state.
The type-coercion collaborator read_value lives outside the core, so it
is threaded through as a parameter named rv.
-/

/-- ValueType enum from the output module: the declared type of a property. -/
inductive VType where
  | STRING
  | NUMBER
  | BOOLEAN
  | ARRAY
  deriving DecidableEq, Repr

/-- Python values that flow through the framework: strings, numbers,
booleans, lists, dicts and None. -/
inductive Value where
  | str (s : String)
  | num (n : Int)
  | bool (b : Bool)
  | vlist (xs : List Value)
  | dict (xs : List (String × Value))
  | null
  deriving Repr

mutual

/-- Structural equality on values, mirroring the equality Python applies
when the code compares entity fields. -/
def Value.beq : Value → Value → Bool
  | .str a, .str b => a == b
  | .num a, .num b => a == b
  | .bool a, .bool b => a == b
  | .vlist a, .vlist b => Value.beqList a b
  | .dict a, .dict b => Value.beqDict a b
  | .null, .null => true
  | _, _ => false

def Value.beqList : List Value → List Value → Bool
  | [], [] => true
  | a :: as, b :: bs => Value.beq a b && Value.beqList as bs
  | _, _ => false

def Value.beqDict : List (String × Value) → List (String × Value) → Bool
  | [], [] => true
  | (k, v) :: as, (l, w) :: bs => k == l && Value.beq v w && Value.beqDict as bs
  | _, _ => false

end

instance : BEq Value := ⟨Value.beq⟩

mutual

theorem Value.beq_refl : ∀ a : Value, Value.beq a a = true
  | .str a => by simp [Value.beq]
  | .num a => by simp [Value.beq]
  | .bool a => by simp [Value.beq]
  | .vlist xs => by simpa [Value.beq] using Value.beqList_refl xs
  | .dict xs => by simpa [Value.beq] using Value.beqDict_refl xs
  | .null => rfl

theorem Value.beqList_refl : ∀ xs : List Value, Value.beqList xs xs = true
  | [] => rfl
  | a :: as => by
      simp only [Value.beqList, Bool.and_eq_true]
      exact ⟨Value.beq_refl a, Value.beqList_refl as⟩

theorem Value.beqDict_refl : ∀ xs : List (String × Value), Value.beqDict xs xs = true
  | [] => rfl
  | (k, v) :: as => by
      simp only [Value.beqDict, Bool.and_eq_true]
      exact ⟨⟨by simp, Value.beq_refl v⟩, Value.beqDict_refl as⟩

end

mutual

theorem Value.eq_of_beq : ∀ (a b : Value), Value.beq a b = true → a = b
  | .str a, .str b, h => by simpa [Value.beq] using h
  | .str _, .num _, h => by simp [Value.beq] at h
  | .str _, .bool _, h => by simp [Value.beq] at h
  | .str _, .vlist _, h => by simp [Value.beq] at h
  | .str _, .dict _, h => by simp [Value.beq] at h
  | .str _, .null, h => by simp [Value.beq] at h
  | .num _, .str _, h => by simp [Value.beq] at h
  | .num a, .num b, h => by simpa [Value.beq] using h
  | .num _, .bool _, h => by simp [Value.beq] at h
  | .num _, .vlist _, h => by simp [Value.beq] at h
  | .num _, .dict _, h => by simp [Value.beq] at h
  | .num _, .null, h => by simp [Value.beq] at h
  | .bool _, .str _, h => by simp [Value.beq] at h
  | .bool _, .num _, h => by simp [Value.beq] at h
  | .bool a, .bool b, h => by simpa [Value.beq] using h
  | .bool _, .vlist _, h => by simp [Value.beq] at h
  | .bool _, .dict _, h => by simp [Value.beq] at h
  | .bool _, .null, h => by simp [Value.beq] at h
  | .vlist _, .str _, h => by simp [Value.beq] at h
  | .vlist _, .num _, h => by simp [Value.beq] at h
  | .vlist _, .bool _, h => by simp [Value.beq] at h
  | .vlist xs, .vlist ys, h => by
      have hl : Value.beqList xs ys = true := by simpa [Value.beq] using h
      rw [Value.eqList_of_beq xs ys hl]
  | .vlist _, .dict _, h => by simp [Value.beq] at h
  | .vlist _, .null, h => by simp [Value.beq] at h
  | .dict _, .str _, h => by simp [Value.beq] at h
  | .dict _, .num _, h => by simp [Value.beq] at h
  | .dict _, .bool _, h => by simp [Value.beq] at h
  | .dict _, .vlist _, h => by simp [Value.beq] at h
  | .dict xs, .dict ys, h => by
      have hl : Value.beqDict xs ys = true := by simpa [Value.beq] using h
      rw [Value.eqDict_of_beq xs ys hl]
  | .dict _, .null, h => by simp [Value.beq] at h
  | .null, .str _, h => by simp [Value.beq] at h
  | .null, .num _, h => by simp [Value.beq] at h
  | .null, .bool _, h => by simp [Value.beq] at h
  | .null, .vlist _, h => by simp [Value.beq] at h
  | .null, .dict _, h => by simp [Value.beq] at h
  | .null, .null, _ => rfl

theorem Value.eqList_of_beq : ∀ (xs ys : List Value), Value.beqList xs ys = true → xs = ys
  | [], [], _ => rfl
  | [], _ :: _, h => by simp [Value.beqList] at h
  | _ :: _, [], h => by simp [Value.beqList] at h
  | a :: as, b :: bs, h => by
      simp only [Value.beqList, Bool.and_eq_true] at h
      rw [Value.eq_of_beq a b h.1, Value.eqList_of_beq as bs h.2]

theorem Value.eqDict_of_beq :
    ∀ (xs ys : List (String × Value)), Value.beqDict xs ys = true → xs = ys
  | [], [], _ => rfl
  | [], _ :: _, h => by simp [Value.beqDict] at h
  | _ :: _, [], h => by simp [Value.beqDict] at h
  | (k, v) :: as, (l, w) :: bs, h => by
      simp only [Value.beqDict, Bool.and_eq_true] at h
      have hk : k = l := by simpa using h.1.1
      rw [hk, Value.eq_of_beq v w h.1.2, Value.eqDict_of_beq as bs h.2]

end

instance : LawfulBEq Value where
  eq_of_beq h := Value.eq_of_beq _ _ h
  rfl := Value.beq_refl _

instance : DecidableEq Value := fun a b =>
  decidable_of_iff (Value.beq a b = true) ⟨Value.eq_of_beq a b, fun h => h ▸ Value.beq_refl a⟩

/-- Entity records are Python dicts: ordered key-value association lists.
Lookup of a key uses the first matching pair; a well-formed dict has no
duplicate keys. -/
abbrev Entity := List (String × Value)

/-- Keys of an entity, in insertion order, mirroring Python dict.keys(). -/
def Entity.keyList (e : Entity) : List String := e.map Prod.fst

/-- Assignment obj[k] = v on a Python dict: replace the value of an
existing key in place, otherwise append the new pair at the end. -/
def Entity.assign (e : Entity) (k : String) (v : Value) : Entity :=
  match e with
  | [] => [(k, v)]
  | (l, w) :: rest => if l = k then (k, v) :: rest else (l, w) :: Entity.assign rest k v

/-- Python exceptions and error outcomes observable in the embedded core. -/
inductive PyErr where
  | valueError (msg : String)
  | typeError
  | attributeError
  | keyError (k : String)
  | indexError
  | commandException (msg : String)
  | coercionError
  | notFound
  deriving DecidableEq, Repr

/-- Accessor for reading a field: either a direct key name (a plain
string in the source) or a custom getter function over the entity. -/
inductive GetAccessor where
  | key (k : String)
  | fn (f : Entity → Value)

/-- Accessor for writing a field: either a direct key name or a custom
setter function taking the entity and the coerced value and producing
the updated entity. -/
inductive SetAccessor where
  | key (k : String)
  | fn (f : Entity → Value → Entity)

/-- PropertyMapping from namespace.py: one named, typed field of an
entity. In the source the constructor defaults set to get when set is
omitted; users of the embedding pass the resolved accessors directly. -/
structure PropertyMapping where
  name : String
  descr : String
  get : GetAccessor
  set : SetAccessor
  list : Bool := false
  type : VType := .STRING

/-- Signature of the read_value collaborator from the output module: it
coerces a raw value into the declared type and fails with a coercion
error on mismatch. The collaborator is outside the core, so every
definition that needs it takes it as a parameter named rv. -/
abbrev ReadValue := Value → VType → Except PyErr Value

/-- PropertyMapping.do_get: invoke a callable getter, otherwise look the
key up with dict.get, which yields None when the key is absent. -/
def PropertyMapping.do_get (pm : PropertyMapping) (obj : Entity) : Value :=
  match pm.get with
  | .fn f => f obj
  | .key k => (obj.lookup k).getD .null

/-- PropertyMapping.do_set: coerce the raw value through read_value,
then write it through the callable setter or by direct key assignment. -/
def PropertyMapping.do_set (rv : ReadValue) (pm : PropertyMapping) (obj : Entity) (v : Value) :
    Except PyErr Entity := do
  let w ← rv v pm.type
  match pm.set with
  | .fn f => .ok (f obj w)
  | .key k => .ok (obj.assign k w)

/-- PropertyMapping.do_append: reject non-array declared types, coerce
the value, then evaluate the expression set(obj, get(obj).append(w)).
The source invokes the raw get and set attributes as functions: when an
accessor is a direct key name, calling a string raises TypeError before
anything is written. When get is a function, append on a non-list value
raises AttributeError; on a list it returns None, which is then passed
to the setter (the in-place mutation of the aliased Python list is not
representable under value semantics and no claim depends on it). -/
def PropertyMapping.do_append (rv : ReadValue) (pm : PropertyMapping) (obj : Entity) (v : Value) :
    Except PyErr Entity :=
  if pm.type ≠ .ARRAY then .error (.valueError "Property is not an array")
  else do
    let _w ← rv v pm.type
    match pm.get with
    | .key _ => .error .typeError
    | .fn g =>
      match g obj with
      | .vlist _ =>
        match pm.set with
        | .key _ => .error .typeError
        | .fn f => .ok (f obj .null)
      | _ => .error .attributeError

/-- PropertyMapping.do_remove: reject non-array declared types, coerce
the value through read_value, and then fall off the end of the method:
nothing is ever written back, the entity is returned unchanged. -/
def PropertyMapping.do_remove (rv : ReadValue) (pm : PropertyMapping) (obj : Entity) (v : Value) :
    Except PyErr Entity :=
  if pm.type ≠ .ARRAY then .error (.valueError "Property is not an array")
  else do
    let _w ← rv v pm.type
    .ok obj

/-- ItemNamespace.has_property: whether some mapping in the schema has
the given name. -/
def has_property (pms : List PropertyMapping) (p : String) : Bool :=
  pms.any (fun m => m.name == p)

/-- ItemNamespace.get_mapping: first schema mapping with the given name;
indexing an empty filter result raises IndexError in the source. -/
def get_mapping (pms : List PropertyMapping) (p : String) : Except PyErr PropertyMapping :=
  match pms.filter (fun m => m.name == p) with
  | [] => .error .indexError
  | m :: _ => .ok m

/-- Mutable state of an ItemNamespace (with the saved flag and the name
added by EntityNamespace.SingleItemNamespace; name is the Python None
value for a freshly created record). -/
structure ItemState where
  name : Value
  entity : Entity
  orig_entity : Entity
  modified : Bool
  saved : Bool
  property_mappings : List PropertyMapping

/-- ItemNamespace.get_changed_keys: iterate the keys of entity and keep
a key when it is absent from orig_entity or mapped to a different value.
Keys that occur only in orig_entity are never visited. -/
def get_changed_keys (e o : Entity) : List String :=
  (Entity.keyList e).filter (fun i => !(Entity.keyList o).contains i || e.lookup i != o.lookup i)

/-- ItemNamespace.get_diff: the dict comprehension over the changed keys,
reading each value from the working entity. -/
def get_diff (e o : Entity) : Entity :=
  (get_changed_keys e o).filterMap (fun k => (e.lookup k).map (fun v => (k, v)))

/-- Modelled from the spec for the refinement comparison of claim C4:
the changed-key set as the spec words it, namely all keys on which the
two mappings differ, including keys present in one mapping but absent
from the other, in either direction. -/
def spec_changed_keys (e o : Entity) : List String :=
  (Entity.keyList e ++ Entity.keyList o).dedup.filter (fun k => e.lookup k != o.lookup k)

/-- Outcome of SetEntityCommand.run: normal completion, the early return
after the unknown-property message, or a raised exception. -/
inductive RunOutcome where
  | completed
  | abortedUnknown (k : String)
  | raised (e : PyErr)
  deriving DecidableEq, Repr

/-- Second loop of SetEntityCommand.run: apply each keyword assignment
in order through do_set. A raised exception stops the loop and leaves
the mutations already performed in place. -/
def applyKwargs (rv : ReadValue) (pms : List PropertyMapping) (e : Entity) :
    List (String × Value) → Entity × Option PyErr
  | [] => (e, none)
  | (k, v) :: rest =>
    match get_mapping pms k with
    | .error err => (e, some err)
    | .ok pm =>
      match pm.do_set rv e v with
      | .error err => (e, some err)
      | .ok e2 => applyKwargs rv pms e2 rest

/-- Third loop of SetEntityCommand.run: process the operator arguments.
An operator other than += or -= raises a CommandException; += appends
and -= removes through the property mapping. -/
def applyOpargs (rv : ReadValue) (pms : List PropertyMapping) (e : Entity) :
    List (String × String × Value) → Entity × Option PyErr
  | [] => (e, none)
  | (k, op, v) :: rest =>
    if op ≠ "+=" ∧ op ≠ "-=" then
      (e, some (.commandException "Syntax error, invalid operator used"))
    else
      match get_mapping pms k with
      | .error err => (e, some err)
      | .ok pm =>
        match (if op == "+=" then pm.do_append rv e v else pm.do_remove rv e v) with
        | .error err => (e, some err)
        | .ok e2 => applyOpargs rv pms e2 rest

/-- ItemNamespace.SetEntityCommand.run: first validate every keyword
field name against the schema, returning untouched at the first unknown
one; then apply all keyword assignments, then all operator arguments,
and finally mark the namespace modified. -/
def SetEntityCommand.run (rv : ReadValue) (s : ItemState)
    (kwargs : List (String × Value)) (opargs : List (String × String × Value)) :
    ItemState × RunOutcome :=
  match kwargs.find? (fun kv => !has_property s.property_mappings kv.1) with
  | some kv => (s, .abortedUnknown kv.1)
  | none =>
    match applyKwargs rv s.property_mappings s.entity kwargs with
    | (e1, some err) => ({ s with entity := e1 }, .raised err)
    | (e1, none) =>
      match applyOpargs rv s.property_mappings e1 opargs with
      | (e2, some err) => ({ s with entity := e2 }, .raised err)
      | (e2, none) => ({ s with entity := e2, modified := true }, .completed)

/-- ItemNamespace.on_leave: refuse with False and a message while the
namespace is modified, otherwise allow with True; the state is returned
alongside to make explicit that the method assigns nothing. -/
def ItemNamespace.on_leave (s : ItemState) : ItemState × Bool × List String :=
  if s.modified then
    (s, false, ["Object was modified. Type either \"save\" or \"discard\" to leave"])
  else
    (s, true, [])

/-- Modelled from the spec: RpcBasedLoadMixin.get_one issues a
synchronous remote call through the transport collaborator, which is
not part of the core source. Per the spec, a single-record lookup
resolves the record by its primary key and fails with NotFoundError
when no record matches; the remote collection is a list of records. -/
def get_one (backend : List Entity) (primary_key_name : String) (name : Value) :
    Except PyErr Entity :=
  match backend.find? (fun e => e.lookup primary_key_name == some name) with
  | some e => .ok e
  | none => .error .notFound

/-- EntityNamespace.SingleItemNamespace.load: a saved record is fetched
again from the collection by its name; an unsaved one keeps its working
entity; either way orig_entity becomes a deep copy of entity, which is
plain equality under value semantics. -/
def SingleItemNamespace.load (backend : List Entity) (pk : String) (s : ItemState) :
    Except PyErr ItemState :=
  match (if s.saved then get_one backend pk s.name else .ok s.entity) with
  | .error err => .error err
  | .ok e => .ok { s with entity := e, orig_entity := e }

/-- ItemNamespace.DiscardEntityCommand.run: reload the item and clear
the modified flag. -/
def DiscardEntityCommand.run (backend : List Entity) (pk : String) (s : ItemState) :
    Except PyErr ItemState :=
  match SingleItemNamespace.load backend pk s with
  | .error err => .error err
  | .ok t => .ok { t with modified := false }

/-- TaskBasedSaveMixin.post_save: the completion callback body; only the
terminal FINISHED status clears modified and marks the record saved. -/
def TaskBasedSaveMixin.post_save (s : ItemState) (status : String) : ItemState :=
  if status == "FINISHED" then { s with modified := false, saved := true } else s

/-- Task names and primary-key field configured on a concrete namespace
class that mixes in TaskBasedSaveMixin. -/
structure SaveCtx where
  create_task : String
  update_task : String
  delete_task : String
  primary_key_name : String

/-- One call to context.submit_task as observed by the transport: the
task name, its positional arguments, and whether a completion callback
was registered. -/
structure SubmittedTask where
  task_name : String
  args : List Value
  has_callback : Bool
  deriving DecidableEq, Repr

/-- TaskBasedSaveMixin.save: a new record submits the creation task with
the full entity; an existing one submits the update task with the
primary-key value read from orig_entity and the computed diff. Both
branches register the callback fun status => post_save this status,
recorded here as has_callback. -/
def TaskBasedSaveMixin.save (ctx : SaveCtx) (this : ItemState) (new : Bool) :
    Except PyErr SubmittedTask :=
  if new then
    .ok { task_name := ctx.create_task, args := [Value.dict this.entity], has_callback := true }
  else
    match this.orig_entity.lookup ctx.primary_key_name with
    | none => .error (.keyError ctx.primary_key_name)
    | some pk =>
      .ok { task_name := ctx.update_task,
            args := [pk, Value.dict (get_diff this.entity this.orig_entity)],
            has_callback := true }

/-- EntityNamespace.SingleItemNamespace.save forwards to the save
strategy of the parent with new set to the negation of saved. -/
def SingleItemNamespace.save (ctx : SaveCtx) (s : ItemState) : Except PyErr SubmittedTask :=
  TaskBasedSaveMixin.save ctx s (!s.saved)

/-- TaskBasedSaveMixin.delete: resolve the record through get_one, then
submit the deletion task keyed by the primary-key value of the resolved
record; no callback is registered. -/
def TaskBasedSaveMixin.delete (ctx : SaveCtx) (backend : List Entity) (name : Value) :
    Except PyErr SubmittedTask :=
  match get_one backend ctx.primary_key_name name with
  | .error err => .error err
  | .ok entity =>
    match entity.lookup ctx.primary_key_name with
    | none => .error (.keyError ctx.primary_key_name)
    | some pk => .ok { task_name := ctx.delete_task, args := [pk], has_callback := false }

/-- Identity coercion: the behavior of the read_value collaborator on a
STRING field that already holds a string; used to instantiate the rv
parameter in concrete evaluations. -/
def rvId : ReadValue := fun v _ => .ok v

/-- Concrete schema entry shaped like the name property of the tunables
namespace: direct key accessors on the var field. -/
def pmVar : PropertyMapping :=
  { name := "name", descr := "Variable", get := .key "var", set := .key "var", list := true }

/-- Concrete ARRAY-typed schema entry with direct key accessors. -/
def pmArray : PropertyMapping :=
  { name := "tags", descr := "Tags", get := .key "tags", set := .key "tags", type := .ARRAY }

/-- Concrete save context shaped like the tunables namespace. -/
def ctx0 : SaveCtx :=
  { create_task := "tunable.create", update_task := "tunable.update",
    delete_task := "tunable.delete", primary_key_name := "var" }

/-- Concrete record living in the remote collection. -/
def backendEnt1 : Entity := [("var", Value.str "my.tunable"), ("value", Value.str "1")]

/-- Concrete remote collection with a single record. -/
def backend0 : List Entity := [backendEnt1]

/-- Concrete edited item: the working entity changed the value field
relative to the loaded snapshot. -/
def item0 : ItemState :=
  { name := Value.str "my.tunable",
    entity := [("var", Value.str "my.tunable"), ("value", Value.str "2")],
    orig_entity := [("var", Value.str "my.tunable"), ("value", Value.str "1")],
    modified := true, saved := true, property_mappings := [] }

/-- Concrete saved item about to be discarded. -/
def item1 : ItemState :=
  { name := Value.str "my.tunable", entity := [], orig_entity := [],
    modified := true, saved := true, property_mappings := [] }

/-- State produced by discarding item1 against backend0. -/
def discardResult1 : ItemState :=
  { name := Value.str "my.tunable", entity := backendEnt1, orig_entity := backendEnt1,
    modified := false, saved := true, property_mappings := [] }

/-- Concrete freshly loaded, unmodified item holding the single
property pmVar; entity and snapshot agree. -/
def item2 : ItemState :=
  { name := Value.str "my.tunable",
    entity := [("var", Value.str "my.tunable")],
    orig_entity := [("var", Value.str "my.tunable")],
    modified := false, saved := true, property_mappings := [pmVar] }

/-- Membership in the key list coincides with a successful lookup. -/
theorem Entity.lookup_isSome_iff (e : Entity) (k : String) :
    (List.lookup k e).isSome ↔ k ∈ Entity.keyList e := by
  rw [List.lookup_isSome_iff]
  unfold Entity.keyList
  constructor
  · rintro ⟨p, hp, hb⟩
    exact List.mem_map.mpr ⟨p, hp, (by simpa using hb : k = p.1).symm⟩
  · intro hk
    obtain ⟨p, hp, he⟩ := List.mem_map.mp hk
    exact ⟨p, hp, by simp [he]⟩

/-- A mapping differs from itself on no key: the changed-key set of an
entity against itself is empty. -/
theorem get_changed_keys_self (e : Entity) : get_changed_keys e e = [] := by
  unfold get_changed_keys
  rw [List.filter_eq_nil_iff]
  intro i hi
  have hc : (Entity.keyList e).contains i = true := List.elem_iff.mpr hi
  simp [hc, hi]

/-- Lookup in the dict comprehension over a key list: present keys read
their value from the source entity, others are absent. -/
theorem lookup_diffList (e : Entity) (ks : List String) (k : String) :
    List.lookup k (ks.filterMap (fun x => (List.lookup x e).map (fun v => (x, v)))) =
      if k ∈ ks then List.lookup k e else none := by
  induction ks with
  | nil => simp
  | cons a tl ih =>
    by_cases hak : k = a
    · subst hak
      cases h : List.lookup k e with
      | none =>
        rw [List.filterMap_cons, h]
        simp only [Option.map_none']
        rw [ih]
        by_cases hm : k ∈ tl <;> simp [hm, h]
      | some v =>
        simp [List.filterMap_cons, h]
    · have hb : (k == a) = false := by simpa using hak
      have hmem : (k ∈ a :: tl) ↔ (k ∈ tl) := by simp [hak]
      cases h : List.lookup a e with
      | none =>
        rw [List.filterMap_cons, h]
        simp only [Option.map_none']
        rw [ih, if_congr hmem rfl rfl]
      | some v =>
        rw [List.filterMap_cons, h]
        simp only [Option.map_some']
        simp only [List.lookup_cons, hb]
        rw [ih, if_congr hmem rfl rfl]

/-- C3: delivered a terminal task status, the save completion callback
sets modified to false and saved to true exactly on the terminal
success status FINISHED, leaving entity and origEntity untouched; on
any other status it changes no state of the item and raises nothing. -/
theorem claim_C3 (s : ItemState) (status : String) :
    (status = "FINISHED" →
      (TaskBasedSaveMixin.post_save s status).modified = false ∧
      (TaskBasedSaveMixin.post_save s status).saved = true ∧
      (TaskBasedSaveMixin.post_save s status).entity = s.entity ∧
      (TaskBasedSaveMixin.post_save s status).orig_entity = s.orig_entity) ∧
    (status ≠ "FINISHED" → TaskBasedSaveMixin.post_save s status = s) := by
  constructor
  · intro h
    subst h
    simp [TaskBasedSaveMixin.post_save]
  · intro h
    simp [TaskBasedSaveMixin.post_save, h]

/-- Witness for C3 at a concrete item: FINISHED clears modified and a
FAILED status leaves the state identical. -/
theorem claim_C3_witness :
    (TaskBasedSaveMixin.post_save item0 "FINISHED").modified = false ∧
    TaskBasedSaveMixin.post_save item0 "FAILED" = item0 :=
  ⟨((claim_C3 item0 "FINISHED").1 rfl).1, (claim_C3 item0 "FAILED").2 (by decide)⟩

/-- C8: on_leave returns the refusal value false exactly when modified
is true and true otherwise, as a return signal rather than an
exception, and it never mutates the item state. -/
theorem claim_C8 (s : ItemState) :
    (ItemNamespace.on_leave s).1 = s ∧
    ((ItemNamespace.on_leave s).2.1 = true ↔ s.modified = false) := by
  unfold ItemNamespace.on_leave
  by_cases h : s.modified <;> simp [h]

/-- C9: for an ARRAY-typed mapping do_remove only runs the coercion and
returns the entity unchanged, never writing anything; for any other
declared type both do_remove and do_append fail with the
invalid-operation ValueError of the source. -/
theorem claim_C9 (rv : ReadValue) (pm : PropertyMapping) (obj : Entity) (v : Value) :
    (pm.type = .ARRAY →
      PropertyMapping.do_remove rv pm obj v = (rv v .ARRAY).map (fun _ => obj)) ∧
    (pm.type ≠ .ARRAY →
      PropertyMapping.do_remove rv pm obj v = .error (.valueError "Property is not an array") ∧
      PropertyMapping.do_append rv pm obj v = .error (.valueError "Property is not an array")) := by
  constructor
  · intro h
    unfold PropertyMapping.do_remove
    rw [h]
    simp only [if_neg (by simp : ¬(VType.ARRAY ≠ VType.ARRAY))]
    cases hr : rv v .ARRAY <;> simp [Except.map, hr, Except.bind, bind, Except.map]
  · intro h
    unfold PropertyMapping.do_remove PropertyMapping.do_append
    simp [h]

/-- Witness for C9: removal from a concrete array-typed field returns
the entity untouched, and removal on a STRING-typed field fails. -/
theorem claim_C9_witness :
    PropertyMapping.do_remove rvId pmArray [("tags", Value.vlist [Value.str "a"])]
        (Value.str "a") = .ok [("tags", Value.vlist [Value.str "a"])] ∧
    PropertyMapping.do_remove rvId pmVar [] (Value.str "x") =
        .error (.valueError "Property is not an array") := by
  constructor
  · exact ((claim_C9 rvId pmArray [("tags", Value.vlist [Value.str "a"])]
      (Value.str "a")).1 rfl).trans rfl
  · exact ((claim_C9 rvId pmVar [] (Value.str "x")).2 (by simp [pmVar])).1

/-- C10: on an ARRAY-typed mapping whose get and set accessors are
direct key names, do_append always fails, with the coercion error when
read_value rejects the value and otherwise with the TypeError raised by
calling the raw string accessor as a function, so it never writes the
coerced value into the entity. -/
theorem claim_C10 (rv : ReadValue) (pm : PropertyMapping) (obj : Entity) (v : Value)
    (g sk : String) (hg : pm.get = .key g) (_hs : pm.set = .key sk)
    (ht : pm.type = .ARRAY) :
    PropertyMapping.do_append rv pm obj v =
      .error (match rv v .ARRAY with | .ok _ => PyErr.typeError | .error e => e) := by
  unfold PropertyMapping.do_append
  rw [ht]
  simp only [if_neg (by simp : ¬(VType.ARRAY ≠ VType.ARRAY))]
  cases hr : rv v .ARRAY with
  | error e => simp [hr, Except.bind, bind]
  | ok w => simp [hr, Except.bind, bind, hg]

/-- Witness for C10 on the concrete key-accessor array mapping: the
append raises TypeError and produces no updated entity. -/
theorem claim_C10_witness :
    PropertyMapping.do_append rvId pmArray [] (Value.vlist []) = .error PyErr.typeError := by
  exact (claim_C10 rvId pmArray [] (Value.vlist []) "tags" "tags" rfl rfl rfl).trans rfl

/-- C2: the task-based save strategy submits, for an existing item, the
update task whose payload is exactly the primary-key value and the
computed diff of entity against origEntity, never the full entity; for
a new item it submits the creation task carrying the full entity; a
completion callback is registered in both cases. -/
theorem claim_C2 (ctx : SaveCtx) (item : ItemState) :
    (∀ pk, List.lookup ctx.primary_key_name item.orig_entity = some pk →
      TaskBasedSaveMixin.save ctx item false =
        .ok { task_name := ctx.update_task,
              args := [pk, Value.dict (get_diff item.entity item.orig_entity)],
              has_callback := true }) ∧
    (TaskBasedSaveMixin.save ctx item true =
      .ok { task_name := ctx.create_task, args := [Value.dict item.entity],
            has_callback := true }) := by
  constructor
  · intro pk hpk
    unfold TaskBasedSaveMixin.save
    simp only [if_neg (by simp : ¬(false = true))]
    rw [hpk]
  · rfl

/-- Witness for C2 at a concrete edited item: the update payload is the
primary-key value and the one-field diff, and saving the same item as
new carries the whole entity. -/
theorem claim_C2_witness :
    TaskBasedSaveMixin.save ctx0 item0 false =
      .ok { task_name := "tunable.update",
            args := [Value.str "my.tunable", Value.dict [("value", Value.str "2")]],
            has_callback := true } ∧
    TaskBasedSaveMixin.save ctx0 item0 true =
      .ok { task_name := "tunable.create",
            args := [Value.dict [("var", Value.str "my.tunable"), ("value", Value.str "2")]],
            has_callback := true } :=
  ⟨((claim_C2 ctx0 item0).1 (Value.str "my.tunable") rfl).trans rfl,
   (claim_C2 ctx0 item0).2.trans rfl⟩

/-- C7: deleting a primary-key value with no matching record in the
collection fails with NotFoundError and submits no deletion task, while
deleting a matching record submits the deletion task keyed by the
primary-key value of the resolved record, with no callback. -/
theorem claim_C7 (ctx : SaveCtx) (backend : List Entity) (name : Value) :
    (backend.find? (fun e => List.lookup ctx.primary_key_name e == some name) = none →
      TaskBasedSaveMixin.delete ctx backend name = .error .notFound) ∧
    (∀ ent pk,
      backend.find? (fun e => List.lookup ctx.primary_key_name e == some name) = some ent →
      List.lookup ctx.primary_key_name ent = some pk →
      TaskBasedSaveMixin.delete ctx backend name =
        .ok { task_name := ctx.delete_task, args := [pk], has_callback := false }) := by
  constructor
  · intro h
    unfold TaskBasedSaveMixin.delete get_one
    rw [h]
  · intro ent pk hfind hpk
    unfold TaskBasedSaveMixin.delete get_one
    rw [hfind]
    simp [hpk]

/-- Witness for C7 against the concrete one-record collection: an
unknown name yields NotFoundError, the known name yields the deletion
task keyed by the record primary key. -/
theorem claim_C7_witness :
    TaskBasedSaveMixin.delete ctx0 backend0 (Value.str "no.such") = .error .notFound ∧
    TaskBasedSaveMixin.delete ctx0 backend0 (Value.str "my.tunable") =
      .ok { task_name := "tunable.delete", args := [Value.str "my.tunable"],
            has_callback := false } :=
  ⟨(claim_C7 ctx0 backend0 (Value.str "no.such")).1 rfl,
   (claim_C7 ctx0 backend0 (Value.str "my.tunable")).2 backendEnt1
     (Value.str "my.tunable") rfl rfl⟩

/-- C5: whenever discard completes, for a saved record as well as for a
not-yet-persisted new one, the working entity equals the origEntity
snapshot, the changed-key set and the diff are empty, and modified is
false. -/
theorem claim_C5 (backend : List Entity) (pk : String) (s t : ItemState)
    (h : DiscardEntityCommand.run backend pk s = .ok t) :
    t.entity = t.orig_entity ∧ get_changed_keys t.entity t.orig_entity = [] ∧
    get_diff t.entity t.orig_entity = [] ∧ t.modified = false := by
  unfold DiscardEntityCommand.run SingleItemNamespace.load at h
  cases h1 : (if s.saved = true then get_one backend pk s.name else Except.ok s.entity) with
  | error e =>
    rw [h1] at h
    simp at h
  | ok e =>
    rw [h1] at h
    simp only [Except.ok.injEq] at h
    subst h
    refine ⟨rfl, get_changed_keys_self e, ?_, rfl⟩
    unfold get_diff
    rw [get_changed_keys_self e]
    rfl

/-- Witness for C5: discarding the concrete saved item against the
concrete collection restores the snapshot state. -/
theorem claim_C5_witness :
    discardResult1.entity = discardResult1.orig_entity ∧
    get_changed_keys discardResult1.entity discardResult1.orig_entity = [] ∧
    get_diff discardResult1.entity discardResult1.orig_entity = [] ∧
    discardResult1.modified = false :=
  claim_C5 backend0 "var" item1 discardResult1 (by rfl)

/-- Counterexample to C4: at entity empty and origEntity containing the
key a, the two mappings differ on a (present in origEntity, absent in
entity), yet get_changed_keys yields nothing, while the changed-key set
worded by the spec contains a. -/
theorem claim_C4_counterexample :
    get_changed_keys [] [("a", Value.str "1")] = [] ∧
    spec_changed_keys [] [("a", Value.str "1")] = ["a"] ∧
    List.lookup "a" ([] : Entity) ≠ List.lookup "a" [("a", Value.str "1")] := by
  refine ⟨rfl, by decide, by decide⟩

/-- C4 as amended: the changed-key set produced by get_changed_keys is
exactly the set of keys present in entity on which the two mappings
differ; keys present only in origEntity are never included; get_diff is
the sub-mapping of entity restricted to that key set. -/
theorem claim_C4_amended (e o : Entity) :
    (∀ k, k ∈ get_changed_keys e o ↔
      k ∈ Entity.keyList e ∧ List.lookup k e ≠ List.lookup k o) ∧
    (∀ k, List.lookup k (get_diff e o) =
      if k ∈ get_changed_keys e o then List.lookup k e else none) := by
  constructor
  · intro k
    unfold get_changed_keys
    rw [List.mem_filter]
    constructor
    · rintro ⟨hk, hp⟩
      refine ⟨hk, ?_⟩
      rcases (Bool.or_eq_true _ _).mp hp with hnc | hne
      · have hno : k ∉ Entity.keyList o := by
          intro hmem
          have hcc : (Entity.keyList o).contains k = true := List.elem_iff.mpr hmem
          rw [hcc] at hnc
          simp at hnc
        have ho : List.lookup k o = none := by
          cases hoo : List.lookup k o with
          | none => rfl
          | some w =>
            exact absurd ((Entity.lookup_isSome_iff o k).mp (by simp [hoo])) hno
        have he : (List.lookup k e).isSome := (Entity.lookup_isSome_iff e k).mpr hk
        rw [ho]
        intro hcontra
        rw [hcontra] at he
        simp at he
      · exact bne_iff_ne.mp hne
    · rintro ⟨hk, hne⟩
      exact ⟨hk, (Bool.or_eq_true _ _).mpr (Or.inr (bne_iff_ne.mpr hne))⟩
  · intro k
    unfold get_diff
    exact lookup_diffList e (get_changed_keys e o) k

/-- Discard helper: a completed discard leaves the modified flag false
and an empty changed-key set. -/
theorem discard_sets_clean (backend : List Entity) (pk : String) (s t : ItemState)
    (h : DiscardEntityCommand.run backend pk s = .ok t) :
    t.modified = false ∧ get_changed_keys t.entity t.orig_entity = [] := by
  unfold DiscardEntityCommand.run SingleItemNamespace.load at h
  cases h1 : (if s.saved = true then get_one backend pk s.name else Except.ok s.entity) with
  | error e =>
    rw [h1] at h
    simp at h
  | ok e =>
    rw [h1] at h
    simp only [Except.ok.injEq] at h
    subst h
    exact ⟨rfl, get_changed_keys_self e⟩

/-- Counterexample to C6: starting from the freshly loaded, unmodified
item2 (entity equal to its snapshot), a set command assigning the name
property its current value completes, sets modified to true, and yet
the changed-key set between entity and origEntity stays empty, so
modified true does not imply an uncommitted edit. -/
theorem claim_C6_counterexample :
    item2.modified = false ∧
    (SetEntityCommand.run rvId item2 [("name", Value.str "my.tunable")] []).2 =
      RunOutcome.completed ∧
    (SetEntityCommand.run rvId item2 [("name", Value.str "my.tunable")] []).1.modified = true ∧
    get_changed_keys
      (SetEntityCommand.run rvId item2 [("name", Value.str "my.tunable")] []).1.entity
      (SetEntityCommand.run rvId item2 [("name", Value.str "my.tunable")] []).1.orig_entity
      = [] := by
  refine ⟨rfl, rfl, rfl, by decide⟩

/-- C6 as amended: the modified flag records that an edit command ran,
not that the changed-key set is non-empty; every completed set command
sets modified to true, even one assigning a field its current value,
and a completed discard leaves modified false with an empty changed-key
set. -/
theorem claim_C6_amended :
    (∀ (rv : ReadValue) (s : ItemState) (kwargs : List (String × Value))
        (opargs : List (String × String × Value)) (s2 : ItemState),
      SetEntityCommand.run rv s kwargs opargs = (s2, RunOutcome.completed) →
      s2.modified = true) ∧
    (∀ (backend : List Entity) (pk : String) (s t : ItemState),
      DiscardEntityCommand.run backend pk s = .ok t →
      t.modified = false ∧ get_changed_keys t.entity t.orig_entity = []) := by
  constructor
  · intro rv s kwargs opargs s2 h
    unfold SetEntityCommand.run at h
    split at h
    · simp at h
    · split at h
      · simp at h
      · split at h
        · simp at h
        · rw [Prod.mk.injEq] at h
          rw [← h.1]
  · exact discard_sets_clean

/-- Witness for C6 at concrete inputs: the no-op set on item2 completes
with modified true, and the discard of item1 ends with modified false
and an empty changed-key set. -/
theorem claim_C6_witness :
    (SetEntityCommand.run rvId item2 [("name", Value.str "my.tunable")] []).1.modified = true ∧
    discardResult1.modified = false ∧
    get_changed_keys discardResult1.entity discardResult1.orig_entity = [] := by
  refine ⟨claim_C6_amended.1 rvId item2 [("name", Value.str "my.tunable")] []
    (SetEntityCommand.run rvId item2 [("name", Value.str "my.tunable")] []).1 (by rfl), ?_, ?_⟩
  · exact (claim_C6_amended.2 backend0 "var" item1 discardResult1 (by rfl)).1
  · exact (claim_C6_amended.2 backend0 "var" item1 discardResult1 (by rfl)).2

/-- C1: the set command validates every keyword field name against the
schema before touching the entity, so a batch containing any unknown
field leaves the item state exactly as it was, with no assignment
applied and modified untouched; conversely a completed batch implies
every field was validated, modified is set to true, and, in a batch of
plain assignments, the entity equals the result of applying them all. -/
theorem claim_C1 (rv : ReadValue) (s : ItemState) (kwargs : List (String × Value))
    (opargs : List (String × String × Value)) (s2 : ItemState) (out : RunOutcome)
    (hrun : SetEntityCommand.run rv s kwargs opargs = (s2, out)) :
    ((∃ kv ∈ kwargs, has_property s.property_mappings kv.1 = false) →
      s2 = s ∧ out ≠ RunOutcome.completed) ∧
    (out = RunOutcome.completed →
      (∀ kv ∈ kwargs, has_property s.property_mappings kv.1 = true) ∧
      s2.modified = true ∧
      (opargs = [] → s2.entity = (applyKwargs rv s.property_mappings s.entity kwargs).1)) := by
  unfold SetEntityCommand.run at hrun
  split at hrun
  next kv0 heq =>
    rw [Prod.mk.injEq] at hrun
    obtain ⟨hs2, hout⟩ := hrun
    constructor
    · intro _
      refine ⟨hs2.symm, ?_⟩
      rw [← hout]
      simp
    · intro hc
      rw [← hout] at hc
      simp at hc
  next heqF =>
    have hall : ∀ kv ∈ kwargs, has_property s.property_mappings kv.1 = true := by
      intro kv hkv
      have hnp := List.find?_eq_none.mp heqF kv hkv
      simpa using hnp
    have habsd : (∃ kv ∈ kwargs, has_property s.property_mappings kv.1 = false) → False := by
      rintro ⟨kv, hkv, hfalse⟩
      rw [hall kv hkv] at hfalse
      cases hfalse
    split at hrun
    next e1 err heqK =>
      rw [Prod.mk.injEq] at hrun
      obtain ⟨hs2, hout⟩ := hrun
      refine ⟨fun hex => absurd hex habsd, ?_⟩
      intro hc
      rw [← hout] at hc
      simp at hc
    next e1 heqK =>
      split at hrun
      next e2 err heqO =>
        rw [Prod.mk.injEq] at hrun
        obtain ⟨hs2, hout⟩ := hrun
        refine ⟨fun hex => absurd hex habsd, ?_⟩
        intro hc
        rw [← hout] at hc
        simp at hc
      next e2 heqO =>
        rw [Prod.mk.injEq] at hrun
        obtain ⟨hs2, _⟩ := hrun
        refine ⟨fun hex => absurd hex habsd, ?_⟩
        intro _
        refine ⟨hall, ?_, ?_⟩
        · rw [← hs2]
        · intro hop
          subst hop
          have h' : ((e1 : Entity), (none : Option PyErr)) = (e2, none) := heqO
          have he2 : e2 = e1 := (congrArg Prod.fst h').symm
          rw [← hs2, heqK]
          exact he2
/-- Witness for C1: a batch on item2 naming the unknown field bogus
leaves the state identical and does not complete, while the batch
assigning the known field name completes with modified true and the
entity equal to the applied assignments. -/
theorem claim_C1_witness :
    (SetEntityCommand.run rvId item2 [("bogus", Value.str "1")] []).1 = item2 ∧
    (SetEntityCommand.run rvId item2 [("bogus", Value.str "1")] []).2 ≠
      RunOutcome.completed ∧
    (SetEntityCommand.run rvId item2 [("name", Value.str "x")] []).1.modified = true := by
  have h1 := (claim_C1 rvId item2 [("bogus", Value.str "1")] []
    (SetEntityCommand.run rvId item2 [("bogus", Value.str "1")] []).1
    (SetEntityCommand.run rvId item2 [("bogus", Value.str "1")] []).2 rfl).1
    ⟨("bogus", Value.str "1"), by simp, by rfl⟩
  have h2 := (claim_C1 rvId item2 [("name", Value.str "x")] []
    (SetEntityCommand.run rvId item2 [("name", Value.str "x")] []).1
    (SetEntityCommand.run rvId item2 [("name", Value.str "x")] []).2 rfl).2 (by rfl)
  exact ⟨h1.1, h1.2, h2.2.1⟩
